import Mathlib

/-!
Shallow embedding of the hevy-mcp-server request pipeline
(validators in `src/lib/transforms.ts`, transformers in `src/lib/schemas.ts`,
error normalizer in `src/lib/errors.ts`, and the MCP tool handlers of the
current agent), together with theorems settling the frozen claims.

JavaScript numbers are modelled as rationals (ℚ); the `T | null | undefined`
value space of optional JS fields is modelled by `JsOpt`; functions that
`throw ValidationError` are modelled as `Except String`.
-/

namespace HevyMcp

/-- A JavaScript optional slot: the value may be `undefined`, `null`, or present. -/
inductive JsOpt (α : Type) where
  | undef : JsOpt α
  | null : JsOpt α
  | val : α → JsOpt α
deriving DecidableEq, Repr

/-- JS truthiness of a string-valued slot: `undefined`, `null` and `""` are falsy. -/
def truthyStr : JsOpt String → Bool
  | .undef => false
  | .null => false
  | .val s => s ≠ ""

/-- The `x !== null && x !== undefined` presence test used by the validators. -/
def isPresent {α : Type} : JsOpt α → Bool
  | .val _ => true
  | _ => false

/-- Character-list prefix test (needle first). -/
def charsStartWith : List Char → List Char → Bool
  | [], _ => true
  | _ :: _, [] => false
  | a :: as, b :: bs => a == b && charsStartWith as bs

/-- Character-list substring test (hay first). -/
def charsContain (hay needle : List Char) : Bool :=
  match hay with
  | [] => needle.isEmpty
  | _ :: rest => charsStartWith needle hay || charsContain rest needle

/-- `hay.includes(needle)`. -/
def containsSubstr (hay needle : String) : Bool :=
  charsContain hay.data needle.data

instance {ε α : Type} [DecidableEq ε] [DecidableEq α] : DecidableEq (Except ε α)
  | .error x, .error y =>
    if h : x = y then .isTrue (by rw [h]) else .isFalse (by simp [h])
  | .error _, .ok _ => .isFalse (by simp)
  | .ok _, .error _ => .isFalse (by simp)
  | .ok x, .ok y =>
    if h : x = y then .isTrue (by rw [h]) else .isFalse (by simp [h])

/-- From `src/lib/transforms.ts` (`validatePagination`): page must be ≥ 1,
page size must be ≥ 1 and must not exceed the per-endpoint maximum;
the first violated check produces the thrown `ValidationError` message. -/
def validatePagination (page pageSize maxPageSize : ℚ) : Except String Unit :=
  if page < 1 then
    .error ("Page must be 1 or greater, got " ++ toString page)
  else if pageSize < 1 then
    .error ("Page size must be at least 1, got " ++ toString pageSize)
  else if pageSize > maxPageSize then
    .error ("Page size cannot exceed " ++ toString maxPageSize ++ ", got " ++ toString pageSize)
  else
    .ok ()

/-- From `src/lib/transforms.ts`: `PAGINATION_LIMITS.WORKOUTS`. -/
def PAGINATION_LIMITS_WORKOUTS : ℚ := 10
/-- From `src/lib/transforms.ts`: `PAGINATION_LIMITS.ROUTINES`. -/
def PAGINATION_LIMITS_ROUTINES : ℚ := 10
/-- From `src/lib/transforms.ts`: `PAGINATION_LIMITS.ROUTINE_FOLDERS`. -/
def PAGINATION_LIMITS_ROUTINE_FOLDERS : ℚ := 10
/-- From `src/lib/transforms.ts`: `PAGINATION_LIMITS.WORKOUT_EVENTS`. -/
def PAGINATION_LIMITS_WORKOUT_EVENTS : ℚ := 10
/-- From `src/lib/transforms.ts`: `PAGINATION_LIMITS.EXERCISE_TEMPLATES`. -/
def PAGINATION_LIMITS_EXERCISE_TEMPLATES : ℚ := 100

/-- Time-zone designator of an ISO-8601 date-time, as allowed by the pattern
`(Z|[+-]\d{2}:\d{2})` in `validateISO8601Date`. -/
inductive TZ where
  | zulu : TZ
  | plus : Nat → Nat → TZ
  | minus : Nat → Nat → TZ
deriving DecidableEq, Repr

/-- Time-of-day component of an ISO-8601 string: `T\d{2}:\d{2}:\d{2}`,
optional fraction of 1–3 digits, optional time-zone designator. -/
structure ISOTimeRec where
  hour : Nat
  minute : Nat
  second : Nat
  frac : Option (List Nat)
  tz : Option TZ
deriving DecidableEq, Repr

/-- A string decomposed by the ISO-8601 pattern of `validateISO8601Date`:
`\d{4}-\d{2}-\d{2}` with an optional time component. -/
structure ISORec where
  year : Nat
  month : Nat
  day : Nat
  time : Option ISOTimeRec
deriving DecidableEq, Repr

/-- One decimal digit. -/
def digitVal (c : Char) : Option Nat :=
  if c.isDigit then some (c.toNat - '0'.toNat) else none

/-- Two decimal digits. -/
def parse2 : List Char → Option (Nat × List Char)
  | c1 :: c2 :: rest =>
    match digitVal c1, digitVal c2 with
    | some a, some b => some (10 * a + b, rest)
    | _, _ => none
  | _ => none

/-- Four decimal digits. -/
def parse4 : List Char → Option (Nat × List Char)
  | c1 :: c2 :: c3 :: c4 :: rest =>
    match digitVal c1, digitVal c2, digitVal c3, digitVal c4 with
    | some a, some b, some c, some d => some (1000 * a + 100 * b + 10 * c + d, rest)
    | _, _, _, _ => none
  | _ => none

/-- The trailing time-zone designator: end of string, `Z`, or `[+-]\d{2}:\d{2}`. -/
def parseTZ : List Char → Option (Option TZ)
  | [] => some none
  | ['Z'] => some (some .zulu)
  | sign :: rest =>
    if sign = '+' ∨ sign = '-' then
      match parse2 rest with
      | some (oh, ':' :: rest2) =>
        match parse2 rest2 with
        | some (om, []) =>
          some (some (if sign = '+' then .plus oh om else .minus oh om))
        | _ => none
      | _ => none
    else none

/-- The optional fraction `(\.\d{1,3})?` followed by the time-zone designator.
A run of more than three digits after the dot can never be completed by the
designator pattern, so taking the maximal digit run is equivalent to the
regex's backtracking. -/
def parseFracTZ : List Char → Option (Option (List Nat) × Option TZ)
  | '.' :: rest =>
    let ds := rest.takeWhile Char.isDigit
    if 1 ≤ ds.length ∧ ds.length ≤ 3 then
      match parseTZ (rest.drop ds.length) with
      | some tz => some (some (ds.map fun c => c.toNat - '0'.toNat), tz)
      | none => none
    else none
  | cs =>
    match parseTZ cs with
    | some tz => some (none, tz)
    | none => none

/-- The optional time component `(T\d{2}:\d{2}:\d{2}(\.\d{1,3})?(Z|[+-]\d{2}:\d{2})?)?`. -/
def parseTime : List Char → Option (Option ISOTimeRec)
  | [] => some none
  | 'T' :: rest =>
    match parse2 rest with
    | some (hh, ':' :: rest2) =>
      match parse2 rest2 with
      | some (mm, ':' :: rest3) =>
        match parse2 rest3 with
        | some (ss, rest4) =>
          match parseFracTZ rest4 with
          | some (frac, tz) => some (some ⟨hh, mm, ss, frac, tz⟩)
          | none => none
        | _ => none
      | _ => none
    | _ => none
  | _ => none

/-- Decompose a string by the ISO-8601 pattern used in `validateISO8601Date`
(`/^\d{4}-\d{2}-\d{2}(T\d{2}:\d{2}:\d{2}(\.\d{1,3})?(Z|[+-]\d{2}:\d{2})?)?$/`);
`none` means the pattern does not match. -/
def parseISO (s : String) : Option ISORec :=
  match parse4 s.data with
  | some (y, '-' :: rest) =>
    match parse2 rest with
    | some (m, '-' :: rest2) =>
      match parse2 rest2 with
      | some (d, rest3) =>
        match parseTime rest3 with
        | some t => some ⟨y, m, d, t⟩
        | none => none
      | _ => none
    | _ => none
  | _ => none

/-- Gregorian leap year. -/
def isLeap (y : Nat) : Bool :=
  y % 4 = 0 ∧ (y % 100 ≠ 0 ∨ y % 400 = 0)

/-- Days in a month (month 1–12). -/
def daysInMonth (y m : Nat) : Nat :=
  if m = 2 then (if isLeap y then 29 else 28)
  else if m = 4 ∨ m = 6 ∨ m = 9 ∨ m = 11 then 30
  else 31

/-- Days from the Unix epoch to the civil date (y, m, d), months 1–12
(standard civil-calendar conversion). -/
def daysFromCivil (y m d : Nat) : Int :=
  let yi : Int := (y : Int) - (if m ≤ 2 then 1 else 0)
  let era : Int := Int.fdiv yi 400
  let yoe : Int := yi - era * 400
  let mp : Int := ((m + 9) % 12 : Nat)
  let doy : Int := (153 * mp + 2) / 5 + ((d : Int) - 1)
  let doe : Int := yoe * 365 + yoe / 4 - yoe / 100 + doy
  era * 146097 + doe - 719468

/-- Millisecond value of a 1–3 digit fraction of a second. -/
def msOfFrac : Option (List Nat) → Nat
  | none => 0
  | some ds => (ds.foldl (fun a d => 10 * a + d) 0) * 10 ^ (3 - ds.length)

/-- Minutes east of UTC expressed by an explicit time-zone designator. -/
def tzMinutes : TZ → Int
  | .zulu => 0
  | .plus oh om => (oh * 60 + om : Nat)
  | .minus oh om => -((oh * 60 + om : Nat) : Int)

/-- Epoch milliseconds of a pattern-matching ISO-8601 string, modelling the
JavaScript engine's parsing of the ISO format (`new Date(s).getTime()`):
`none` models an invalid date (NaN) — out-of-range month, day (checked
against the month's length), hour (24 allowed only at exactly 24:00:00.000),
minute, second or offset. A date-only string is UTC midnight; a date-time
without designator is local time, `localOffsetMin` minutes east of UTC. -/
def isoToMs (localOffsetMin : Int) (r : ISORec) : Option Int :=
  if r.month < 1 ∨ 12 < r.month then none
  else if r.day < 1 ∨ daysInMonth r.year r.month < r.day then none
  else
    match r.time with
    | none => some (daysFromCivil r.year r.month r.day * 86400000)
    | some t =>
      let ms := msOfFrac t.frac
      if ¬ (t.hour ≤ 23 ∨ (t.hour = 24 ∧ t.minute = 0 ∧ t.second = 0 ∧ ms = 0)) then none
      else if 59 < t.minute then none
      else if 59 < t.second then none
      else
        let tzOk : Bool :=
          match t.tz with
          | some (.plus oh om) => oh ≤ 23 ∧ om ≤ 59
          | some (.minus oh om) => oh ≤ 23 ∧ om ≤ 59
          | _ => true
        if ¬ tzOk then none
        else
          let base : Int := daysFromCivil r.year r.month r.day * 86400000 +
            (t.hour : Int) * 3600000 + (t.minute : Int) * 60000 +
            (t.second : Int) * 1000 + (ms : Int)
          match t.tz with
          | some tz => some (base - tzMinutes tz * 60000)
          | none => some (base - localOffsetMin * 60000)

/-- `new Date(s).getTime()` for strings matching the checked ISO pattern
(`none` = NaN). -/
def jsParseISO (localOffsetMin : Int) (s : String) : Option Int :=
  (parseISO s).bind (isoToMs localOffsetMin)

/-- From `src/lib/transforms.ts` (`validateISO8601Date`): the string must match
the ISO-8601 pattern, and must then parse to a valid date. -/
def validateISO8601Date (localOffsetMin : Int) (dateString fieldName : String) :
    Except String Unit :=
  match parseISO dateString with
  | none =>
    .error (fieldName ++ " must be in ISO 8601 format (e.g., 2024-01-15T10:00:00Z), got " ++
      dateString)
  | some r =>
    match isoToMs localOffsetMin r with
    | none => .error (fieldName ++ " is not a valid date: " ++ dateString)
    | some _ => .ok ()

/-- A workout set as seen by the validators and transformer
(`WorkoutSetSchema` in `src/lib/schemas.ts`); all metric fields are
optional/nullable. `index` is not part of the ergonomic schema: it models a
positional index echoed back from a server read. -/
structure WSet where
  type : JsOpt String
  weight_kg : JsOpt ℚ
  reps : JsOpt ℚ
  distance_meters : JsOpt ℚ
  duration_seconds : JsOpt ℚ
  custom_metric : JsOpt ℚ
  rpe : JsOpt ℚ
  index : JsOpt ℚ
deriving DecidableEq, Repr

/-- A workout exercise (`WorkoutExerciseSchema`); `index` and `id` model
upstream-echoed fields that are not part of the ergonomic schema. -/
structure WExercise where
  title : JsOpt String
  exercise_template_id : JsOpt String
  superset_id : JsOpt ℚ
  notes : JsOpt String
  sets : List WSet
  index : JsOpt ℚ
  id : JsOpt String
deriving DecidableEq, Repr

/-- A create/update-workout request (`CreateWorkoutSchema`); `id` models a
server-assigned identifier echoed back from a read. -/
structure CreateWorkout where
  title : String
  description : JsOpt String
  start_time : String
  end_time : String
  routine_id : JsOpt String
  is_private : Bool
  exercises : List WExercise
  id : JsOpt String
deriving DecidableEq, Repr

/-- From `src/lib/transforms.ts`: the closed set of set types. -/
def validSetTypes : List String := ["warmup", "normal", "failure", "dropset"]

/-- From `src/lib/transforms.ts`: the closed set of RPE values
{6, 7, 7.5, 8, 8.5, 9, 9.5, 10} (the half-steps written as exact
rationals). -/
def validRPEValues : List ℚ :=
  [6, 7, mkRat 15 2, 8, mkRat 17 2, 9, mkRat 19 2, 10]

/-- `list.includes(r)` for rationals. -/
def ratElem (r : ℚ) : List ℚ → Bool
  | [] => false
  | x :: rest => if r = x then true else ratElem r rest

/-- From `src/lib/transforms.ts` (`validateRPE`): exact membership in the
closed RPE set (the joined list in the message is a constant). -/
def validateRPE (rpe : ℚ) : Except String Unit :=
  if ratElem rpe validRPEValues then .ok ()
  else .error ("RPE must be one of: 6, 7, 7.5, 8, 8.5, 9, 9.5, 10. Got " ++ toString rpe)

/-- `Exercise ${i}, Set ${j}: ` message prefix. -/
def setLabel (i j : Nat) : String :=
  "Exercise " ++ toString i ++ ", Set " ++ toString j ++ ": "

/-- Sequencing of two validation steps: the first thrown error wins. -/
def seqE (a b : Except String Unit) : Except String Unit :=
  match a with
  | .error m => .error m
  | .ok _ => b

/-- One `set[field] < 0` check of the numeric-field loop in
`validateWorkoutExercises` (a field absent or `null` is skipped). -/
def checkNonNeg (i j : Nat) (fieldName : String) (v : JsOpt ℚ) : Except String Unit :=
  match v with
  | .val x =>
    if x < 0 then .error (setLabel i j ++ fieldName ++ " cannot be negative")
    else .ok ()
  | _ => .ok ()

/-- The RPE step of `validateWorkoutExercises`: if present, delegate to
`validateRPE`, re-wrapping its message with the exercise/set label. -/
def checkRPE (i j : Nat) (v : JsOpt ℚ) : Except String Unit :=
  match v with
  | .val r =>
    match validateRPE r with
    | .error m => .error (setLabel i j ++ m)
    | .ok _ => .ok ()
  | _ => .ok ()

/-- The per-set checks of `validateWorkoutExercises`, in source order:
type present (truthy), type in the closed set, RPE if present, then the
numeric fields in the order of the `numericFields` array. -/
def validateWSet (i j : Nat) (s : WSet) : Except String Unit :=
  match s.type with
  | .val t =>
    if t = "" then .error (setLabel i j ++ "type is required")
    else if validSetTypes.contains t = false then
      .error (setLabel i j ++ "Invalid set type \"" ++ t ++
        "\". Must be one of: warmup, normal, failure, dropset")
    else
      seqE (checkRPE i j s.rpe)
        (seqE (checkNonNeg i j "weight_kg" s.weight_kg)
          (seqE (checkNonNeg i j "reps" s.reps)
            (seqE (checkNonNeg i j "distance_meters" s.distance_meters)
              (seqE (checkNonNeg i j "duration_seconds" s.duration_seconds)
                (checkNonNeg i j "custom_metric" s.custom_metric)))))
  | _ => .error (setLabel i j ++ "type is required")

/-- The `for (const [setIndex, set] of exercise.sets.entries())` loop. -/
def validateSetList (i : Nat) : Nat → List WSet → Except String Unit
  | _, [] => .ok ()
  | j, s :: rest => seqE (validateWSet i j s) (validateSetList i (j + 1) rest)

/-- The per-exercise checks of `validateWorkoutExercises`, in source order:
truthy title, truthy template id, non-empty sets, then each set. (The
source's `Array.isArray(exercise.sets)` check cannot fail here, where `sets`
is a list by type.) -/
def validateWExercise (i : Nat) (e : WExercise) : Except String Unit :=
  if truthyStr e.title = false then
    .error ("Exercise at index " ++ toString i ++ " is missing required field: title")
  else if truthyStr e.exercise_template_id = false then
    .error ("Exercise at index " ++ toString i ++
      " is missing required field: exercise_template_id")
  else if e.sets.isEmpty then
    .error ("Exercise at index " ++ toString i ++ " must have at least one set")
  else validateSetList i 0 e.sets

/-- The `for (const [index, exercise] of exercises.entries())` loop. -/
def validateExerciseList : Nat → List WExercise → Except String Unit
  | _, [] => .ok ()
  | i, e :: rest => seqE (validateWExercise i e) (validateExerciseList (i + 1) rest)

/-- From `src/lib/transforms.ts` (`validateWorkoutExercises`): non-empty list,
then per-exercise checks in array order. (The `Array.isArray(exercises)`
check cannot fail here, where the input is a list by type.) -/
def validateWorkoutExercises (exercises : List WExercise) : Except String Unit :=
  if exercises.isEmpty then .error "At least one exercise is required"
  else validateExerciseList 0 exercises

/-- The date-ordering comparison of `validateWorkoutData`
(`new Date(end) <= new Date(start)` throws). A JavaScript comparison
involving NaN is false, hence the catch-all success branch; it is
unreachable after both dates validated. -/
def compareWorkoutDates (localOffsetMin : Int) (start_time end_time : String) :
    Except String Unit :=
  match jsParseISO localOffsetMin start_time, jsParseISO localOffsetMin end_time with
  | some a, some b =>
    if b ≤ a then .error "end_time must be after start_time" else .ok ()
  | _, _ => .ok ()

/-- The date-validation prefix of `validateWorkoutData` (its statements up to
and including the `end_time must be after start_time` check): validate
`start_time`, then `end_time`, then compare the two instants. -/
def validateWorkoutDates (localOffsetMin : Int) (start_time end_time : String) :
    Except String Unit :=
  seqE (validateISO8601Date localOffsetMin start_time "start_time")
    (seqE (validateISO8601Date localOffsetMin end_time "end_time")
      (compareWorkoutDates localOffsetMin start_time end_time))

/-- From `src/lib/transforms.ts` (`validateWorkoutData`): validate both dates,
check end after start, then validate the exercises. -/
def validateWorkoutData (localOffsetMin : Int) (w : CreateWorkout) : Except String Unit :=
  seqE (validateWorkoutDates localOffsetMin w.start_time w.end_time)
    (validateWorkoutExercises w.exercises)

/-- `value.trim()`: strip leading and trailing whitespace. -/
def jsTrim (s : String) : String :=
  ⟨((s.data.dropWhile Char.isWhitespace).reverse.dropWhile Char.isWhitespace).reverse⟩

/-- From `src/lib/schemas.ts` (`cleanValue`) at string type: `null` becomes
`undefined`, an empty or whitespace-only string becomes `undefined`,
anything else is returned as-is. -/
def cleanStr : JsOpt String → JsOpt String
  | .undef => .undef
  | .null => .undef
  | .val s => if jsTrim s = "" then .undef else .val s

/-- `cleanValue` at number type: only the `null` branch applies. -/
def cleanNum : JsOpt ℚ → JsOpt ℚ
  | .undef => .undef
  | .null => .undef
  | .val x => .val x

/-- From `src/lib/schemas.ts` (`removeUndefined`), per key: a key whose value
is `undefined` is omitted (`none`); any other value — `null` included — is
kept. -/
def dropUndef {α : Type} : JsOpt α → Option (JsOpt α)
  | .undef => none
  | .null => some .null
  | .val x => some (.val x)

/-- `removeUndefined({... f: cleanValue(x) ...})` at one string-valued key. -/
def emitStr (x : JsOpt String) : Option (JsOpt String) := dropUndef (cleanStr x)

/-- `removeUndefined({... f: cleanValue(x) ...})` at one number-valued key. -/
def emitNum (x : JsOpt ℚ) : Option (JsOpt ℚ) := dropUndef (cleanNum x)

/-- A workout set in upstream wire shape: each optional key is `none` when
omitted from the payload. -/
structure APIWSet where
  type : Option (JsOpt String)
  weight_kg : Option (JsOpt ℚ)
  reps : Option (JsOpt ℚ)
  distance_meters : Option (JsOpt ℚ)
  duration_seconds : Option (JsOpt ℚ)
  custom_metric : Option (JsOpt ℚ)
  rpe : Option (JsOpt ℚ)
deriving DecidableEq, Repr

/-- A workout exercise in upstream wire shape: no `title`, `index` or `id`
key exists. -/
structure APIWExercise where
  exercise_template_id : Option (JsOpt String)
  superset_id : Option (JsOpt ℚ)
  notes : Option (JsOpt String)
  sets : List APIWSet
deriving DecidableEq, Repr

/-- The workout payload under the `workout` envelope key. -/
structure APIWorkout where
  title : String
  description : Option (JsOpt String)
  start_time : String
  end_time : String
  routine_id : Option (JsOpt String)
  is_private : Bool
  exercises : List APIWExercise
deriving DecidableEq, Repr

/-- `{ workout: {...} }` envelope. -/
structure APIWorkoutEnvelope where
  workout : APIWorkout
deriving DecidableEq, Repr

/-- The per-set body of `transformWorkoutToAPI`: `type` is copied verbatim
(then `removeUndefined`), every metric goes through `cleanValue`. -/
def transformWSet (s : WSet) : APIWSet :=
  { type := dropUndef s.type
    weight_kg := emitNum s.weight_kg
    reps := emitNum s.reps
    distance_meters := emitNum s.distance_meters
    duration_seconds := emitNum s.duration_seconds
    custom_metric := emitNum s.custom_metric
    rpe := emitNum s.rpe }

/-- The per-exercise body of `transformWorkoutToAPI`: `title`, `index` and
`id` are not read at all. -/
def transformWExercise (e : WExercise) : APIWExercise :=
  { exercise_template_id := dropUndef e.exercise_template_id
    superset_id := emitNum e.superset_id
    notes := emitStr e.notes
    sets := e.sets.map transformWSet }

/-- From `src/lib/schemas.ts` (`transformWorkoutToAPI`): wrap in the
`workout` envelope, clean `description` and `routine_id`, copy `title`,
`start_time`, `end_time` and `is_private` verbatim, map the exercises. -/
def transformWorkoutToAPI (w : CreateWorkout) : APIWorkoutEnvelope :=
  { workout :=
    { title := w.title
      description := emitStr w.description
      start_time := w.start_time
      end_time := w.end_time
      routine_id := emitStr w.routine_id
      is_private := w.is_private
      exercises := w.exercises.map transformWExercise } }

/-- A routine set's rep range (`RepRangeSchema`); the source field `end` is a
reserved word in Lean and is embedded as `end_`. -/
structure RepRange where
  start : JsOpt ℚ
  end_ : JsOpt ℚ
deriving DecidableEq, Repr

/-- A routine set (`RoutineSetSchema`): like a workout set but with
`rep_range` instead of `rpe`. -/
structure RSet where
  type : JsOpt String
  weight_kg : JsOpt ℚ
  reps : JsOpt ℚ
  distance_meters : JsOpt ℚ
  duration_seconds : JsOpt ℚ
  custom_metric : JsOpt ℚ
  rep_range : JsOpt RepRange
deriving DecidableEq, Repr

/-- A routine exercise (`RoutineExerciseSchema`): no display title, but
`rest_seconds`. -/
structure RExercise where
  exercise_template_id : JsOpt String
  superset_id : JsOpt ℚ
  rest_seconds : JsOpt ℚ
  notes : JsOpt String
  sets : List RSet
deriving DecidableEq, Repr

/-- A create/update-routine request. `folder_id = none` models the
`UpdateRoutineSchema` shape where the key itself is absent; `some j` models
`CreateRoutineSchema` where the key is present with value `j` (the source
distinguishes the two by `'folder_id' in routine`). -/
structure RoutineReq where
  title : String
  notes : JsOpt String
  folder_id : Option (JsOpt ℚ)
  exercises : List RExercise
deriving DecidableEq, Repr

/-- Rep range in wire shape. -/
structure APIRepRange where
  start : Option (JsOpt ℚ)
  end_ : Option (JsOpt ℚ)
deriving DecidableEq, Repr

/-- A routine set in wire shape. -/
structure APIRSet where
  type : Option (JsOpt String)
  weight_kg : Option (JsOpt ℚ)
  reps : Option (JsOpt ℚ)
  distance_meters : Option (JsOpt ℚ)
  duration_seconds : Option (JsOpt ℚ)
  custom_metric : Option (JsOpt ℚ)
  rep_range : Option APIRepRange
deriving DecidableEq, Repr

/-- A routine exercise in wire shape. -/
structure APIRExercise where
  exercise_template_id : Option (JsOpt String)
  superset_id : Option (JsOpt ℚ)
  rest_seconds : Option (JsOpt ℚ)
  notes : Option (JsOpt String)
  sets : List APIRSet
deriving DecidableEq, Repr

/-- The routine payload under the `routine` envelope key; `folder_id` is
absent for updates and for cleaned-away values. -/
structure APIRoutine where
  title : String
  notes : Option (JsOpt String)
  exercises : List APIRExercise
  folder_id : Option (JsOpt ℚ)
deriving DecidableEq, Repr

/-- `{ routine: {...} }` envelope. -/
structure APIRoutineEnvelope where
  routine : APIRoutine
deriving DecidableEq, Repr

/-- The `set.rep_range ? removeUndefined({start: ..., end: ...}) : undefined`
step: a falsy (`null`/`undefined`) rep range leaves the key out; a present
object is kept with both bounds cleaned. -/
def transformRepRange : JsOpt RepRange → Option APIRepRange
  | .val r => some { start := emitNum r.start, end_ := emitNum r.end_ }
  | _ => none

/-- The per-set body of `transformRoutineToAPI`. -/
def transformRSet (s : RSet) : APIRSet :=
  { type := dropUndef s.type
    weight_kg := emitNum s.weight_kg
    reps := emitNum s.reps
    distance_meters := emitNum s.distance_meters
    duration_seconds := emitNum s.duration_seconds
    custom_metric := emitNum s.custom_metric
    rep_range := transformRepRange s.rep_range }

/-- The per-exercise body of `transformRoutineToAPI`. -/
def transformRExercise (e : RExercise) : APIRExercise :=
  { exercise_template_id := dropUndef e.exercise_template_id
    superset_id := emitNum e.superset_id
    rest_seconds := emitNum e.rest_seconds
    notes := emitStr e.notes
    sets := e.sets.map transformRSet }

/-- From `src/lib/schemas.ts` (`transformRoutineToAPI`): wrap in the
`routine` envelope, clean `notes`, map the exercises; `folder_id` is added
(cleaned) only when the key is present on the source object. -/
def transformRoutineToAPI (r : RoutineReq) : APIRoutineEnvelope :=
  { routine :=
    { title := r.title
      notes := emitStr r.notes
      exercises := r.exercises.map transformRExercise
      folder_id :=
        match r.folder_id with
        | none => none
        | some j => emitNum j } }

/-- Reading a possibly-omitted key off a JavaScript object: an absent key
reads as `undefined`. -/
def readOpt {α : Type} : Option (JsOpt α) → JsOpt α
  | none => .undef
  | some j => j

/-- Viewing a wire-shape set as validator/transformer input again (as after a
read-modify-write cycle on the raw payload). -/
def embedAPIWSet (s : APIWSet) : WSet :=
  { type := readOpt s.type
    weight_kg := readOpt s.weight_kg
    reps := readOpt s.reps
    distance_meters := readOpt s.distance_meters
    duration_seconds := readOpt s.duration_seconds
    custom_metric := readOpt s.custom_metric
    rpe := readOpt s.rpe
    index := .undef }

/-- Viewing a wire-shape exercise as input again: the stripped `title`,
`index` and `id` keys read as `undefined`. -/
def embedAPIWExercise (e : APIWExercise) : WExercise :=
  { title := .undef
    exercise_template_id := readOpt e.exercise_template_id
    superset_id := readOpt e.superset_id
    notes := readOpt e.notes
    sets := e.sets.map embedAPIWSet
    index := .undef
    id := .undef }

/-- Viewing the transformed workout payload as input again. -/
def embedAPIWorkout (p : APIWorkoutEnvelope) : CreateWorkout :=
  { title := p.workout.title
    description := readOpt p.workout.description
    start_time := p.workout.start_time
    end_time := p.workout.end_time
    routine_id := readOpt p.workout.routine_id
    is_private := p.workout.is_private
    exercises := p.workout.exercises.map embedAPIWExercise
    id := .undef }

/-- Blanking every upstream-echoed field (`id`, positional `index`, and the
per-exercise display `title`) of a workout request. -/
def eraseEchoedSet (s : WSet) : WSet := { s with index := .undef }

/-- Blanking echoed fields of an exercise. -/
def eraseEchoedExercise (e : WExercise) : WExercise :=
  { e with
    title := .undef
    index := .undef
    id := .undef
    sets := e.sets.map eraseEchoedSet }

/-- Blanking echoed fields of a workout request. -/
def eraseEchoedWorkout (w : CreateWorkout) : CreateWorkout :=
  { w with id := .undef, exercises := w.exercises.map eraseEchoedExercise }

/-- One element of an upstream error body's `errors` array: a plain string, a
`{field, message}` pair, or anything else (skipped by the formatter). -/
inductive ErrItem where
  | str : String → ErrItem
  | fieldMsg : String → String → ErrItem
  | other : ErrItem
deriving DecidableEq, Repr

/-- The `data` payload carried by a `HevyApiError`: a flat string, or an
object with optional `error` / `message` fields and an optional `errors`
array. -/
inductive ErrorData where
  | str : String → ErrorData
  | obj : Option String → Option String → Option (List ErrItem) → ErrorData
deriving DecidableEq, Repr

/-- One Zod issue: a field path and a message. -/
structure ZodIssue where
  path : List String
  message : String
deriving DecidableEq, Repr

/-- Any value reaching `handleError`'s `instanceof` chain: a `HevyApiError`
(message, HTTP status, data), a `ZodError`, a domain `ValidationError`, any
other `Error`, or a non-`Error` thrown value. -/
inductive ThrownValue where
  | hevyApiError : String → Int → Option ErrorData → ThrownValue
  | zodError : List ZodIssue → ThrownValue
  | validationError : String → ThrownValue
  | genericError : String → ThrownValue
  | nonError : ThrownValue
deriving DecidableEq, Repr

/-- One entry of an MCP tool response's `content` array. -/
structure ContentItem where
  type : String
  text : String
deriving DecidableEq, Repr

/-- The `McpToolResponse` shape of `src/lib/errors.ts`; `isError = false`
models the key being absent on success responses. -/
structure McpToolResponse where
  content : List ContentItem
  isError : Bool
deriving DecidableEq, Repr

/-- From `src/lib/errors.ts`: `STATUS_CODE_MESSAGES`. -/
def STATUS_CODE_MESSAGES : List (Int × String) :=
  [(400, "Invalid request parameters"),
   (401, "Unauthorized - Invalid API key"),
   (403, "Limit exceeded or unauthorized"),
   (404, "Resource not found"),
   (429, "Rate limit exceeded"),
   (500, "Hevy API error"),
   (502, "Hevy API is temporarily unavailable"),
   (503, "Hevy API is temporarily unavailable")]

/-- From `src/lib/errors.ts` (`getStatusMessage`). -/
def getStatusMessage (status : Int) : String :=
  (STATUS_CODE_MESSAGES.lookup status).getD ("Unexpected error (HTTP " ++ toString status ++ ")")

/-- JS truthiness of an optional string field. -/
def optTruthy : Option String → Bool
  | some s => s ≠ ""
  | none => false

/-- One bullet of the `errors` array rendering: strings are always rendered,
`{field, message}` pairs only when both are truthy, anything else skipped. -/
def renderErrItem : ErrItem → Option String
  | .str s => some ("  - " ++ s)
  | .fieldMsg f m => if f ≠ "" ∧ m ≠ "" then some ("  - " ++ f ++ ": " ++ m) else none
  | .other => none

/-- The `if (error.data)` block of `formatHevyApiError`: a falsy (absent or
empty-string) payload contributes nothing; a flat string becomes a details
section; an object contributes its truthy `error` and `message` fields and,
when an `errors` array is present, a validation-errors section. -/
def dataDetailParts : Option ErrorData → List String
  | none => []
  | some (.str s) => if s = "" then [] else ["", "**Details:**", s]
  | some (.obj e m errs) =>
    (if optTruthy e then ["", "**Details:**", e.getD ""] else []) ++
    (if optTruthy m then ["", "**Details:**", m.getD ""] else []) ++
    (match errs with
     | some items => ["", "**Validation Errors:**"] ++ items.filterMap renderErrItem
     | none => [])

/-- The status-keyed remediation checklist of `formatHevyApiError`. -/
def statusAdvice (status : Int) : List String :=
  if status = 400 then
    ["  - Check that all required parameters are provided",
     "  - Verify parameter formats (dates, IDs, numbers)",
     "  - Ensure all values are within valid ranges"]
  else if status = 401 then
    ["  - Verify your Hevy API key is configured at /setup",
     "  - Check that your API key is still valid",
     "  - Generate a new API key from Hevy if needed"]
  else if status = 403 then
    ["  - You may have exceeded API rate limits",
     "  - Try reducing the frequency of requests",
     "  - Contact Hevy support if limits are too restrictive"]
  else if status = 404 then
    ["  - Verify the resource ID exists",
     "  - Check for typos in the ID",
     "  - Use list endpoints (e.g., get_workouts) to find valid IDs"]
  else if status = 429 then
    ["  - Wait before making more requests",
     "  - Implement exponential backoff",
     "  - Reduce request frequency"]
  else if status = 500 ∨ status = 502 ∨ status = 503 then
    ["  - This is a temporary Hevy API issue",
     "  - Try again in a few moments",
     "  - If the problem persists, contact Hevy support"]
  else
    ["  - Review the error details above",
     "  - Consult the Hevy API documentation",
     "  - Contact Hevy support if the issue persists"]

/-- The full `parts` array built by `formatHevyApiError`. -/
def hevyErrorParts (message : String) (status : Int) (data : Option ErrorData) : List String :=
  ["❌ " ++ getStatusMessage status, "", "**What went wrong:**", message] ++
  dataDetailParts data ++
  ["", "**How to fix:**"] ++
  statusAdvice status

/-- A one-text-entry error response, as every formatter in
`src/lib/errors.ts` returns. -/
def mkErrorResponse (parts : List String) : McpToolResponse :=
  { content := [{ type := "text", text := String.intercalate "\n" parts }], isError := true }

/-- From `src/lib/errors.ts` (`formatHevyApiError`). -/
def formatHevyApiError (message : String) (status : Int) (data : Option ErrorData) :
    McpToolResponse :=
  mkErrorResponse (hevyErrorParts message status data)

/-- Path key of a Zod issue (`issue.path.join(".")`, or `root` when empty). -/
def issuePathKey (issue : ZodIssue) : String :=
  if issue.path.isEmpty then "root" else String.intercalate "." issue.path

/-- Insertion-ordered upsert into the grouped-errors map
(`errorsByPath.set(path, messages)`). -/
def upsertGroup : List (String × List String) → String → String → List (String × List String)
  | [], k, m => [(k, [m])]
  | (k', ms) :: rest, k, m =>
    if k' = k then (k', ms ++ [m]) :: rest else (k', ms) :: upsertGroup rest k m

/-- Grouping Zod issues by path, preserving first-seen order (the `Map`
iteration order of the source). -/
def groupIssues (issues : List ZodIssue) : List (String × List String) :=
  issues.foldl (fun acc issue => upsertGroup acc (issuePathKey issue) issue.message) []

/-- Rendering of one path group in `formatValidationError`. -/
def renderGroup (g : String × List String) : List String :=
  if g.1 = "root" then g.2.map (fun m => "  - " ++ m)
  else ("  - **" ++ g.1 ++ "**:") :: g.2.map (fun m => "    " ++ m)

/-- From `src/lib/errors.ts` (`formatValidationError`, for `ZodError`s). -/
def formatValidationError (issues : List ZodIssue) : McpToolResponse :=
  mkErrorResponse
    (["❌ Schema Validation Error", "", "**What went wrong:**",
      "The provided data does not match the expected format.", "",
      "**Validation Issues:**"] ++
     ((groupIssues issues).map renderGroup).flatten ++
     ["", "**How to fix:**",
      "  - Review the validation issues listed above",
      "  - Ensure all required fields are provided",
      "  - Check that field types match expected types (string, number, etc.)",
      "  - Verify that enum values are from the allowed set"])

/-- The keyword-matched remediation checklist of
`formatValidationErrorMessage`, keyed on the lower-cased message. -/
def validationAdvice (lower : String) : List String :=
  if containsSubstr lower "page" ∧ containsSubstr lower "greater" then
    ["  - Page numbers start at 1",
     "  - Provide a valid page number (1 or greater)"]
  else if containsSubstr lower "page size" then
    ["  - Check the maximum page size for this endpoint",
     "  - Reduce the pageSize parameter",
     "  - Use pagination to retrieve data in smaller chunks"]
  else if containsSubstr lower "iso 8601" then
    ["  - Use ISO 8601 format: YYYY-MM-DDTHH:mm:ssZ",
     "  - Example: 2024-01-15T10:00:00Z",
     "  - Include timezone (Z for UTC or ±HH:mm)"]
  else if containsSubstr lower "endtime" ∧ containsSubstr lower "after" then
    ["  - Ensure endTime is later than startTime",
     "  - Check for typos in date/time values",
     "  - Verify timezone offsets are correct"]
  else if containsSubstr lower "rpe" then
    ["  - RPE must be one of: 6, 7, 7.5, 8, 8.5, 9, 9.5, 10",
     "  - Use half-step increments (e.g., 7.5, 8.5)",
     "  - Leave RPE null/undefined if not tracking it"]
  else if containsSubstr lower "exercise" ∧ containsSubstr lower "required" then
    ["  - Include at least one exercise in your workout/routine",
     "  - Verify the exercises array is not empty"]
  else if containsSubstr lower "exercise" ∧ containsSubstr lower "missing" then
    ["  - Check that all required exercise fields are present",
     "  - Verify exercise template IDs are valid"]
  else if containsSubstr lower "set" ∧
      (containsSubstr lower "required" ∨ containsSubstr lower "at least one") then
    ["  - Include at least one set for each exercise",
     "  - Verify the sets array is not empty"]
  else if containsSubstr lower "cannot be negative" then
    ["  - Ensure all numeric values are positive or zero",
     "  - Check weight, reps, distance, and duration values"]
  else if containsSubstr lower "reprange" then
    ["  - Ensure rep range start is less than or equal to end",
     "  - Both start and end should be positive numbers",
     "  - Example: { start: 8, end: 12 }"]
  else if containsSubstr lower "title" ∧ containsSubstr lower "required" then
    ["  - Provide a non-empty title",
     "  - Title cannot be just whitespace"]
  else
    ["  - Review the error message for specific details",
     "  - Check that all values match expected types and formats",
     "  - Verify required fields are present"]

/-- From `src/lib/errors.ts` (`formatValidationErrorMessage`, for domain
`ValidationError`s). -/
def formatValidationErrorMessage (message : String) : McpToolResponse :=
  mkErrorResponse
    (["❌ Validation Error", "", "**What went wrong:**", message, "",
      "**How to fix:**"] ++ validationAdvice message.toLower)

/-- From `src/lib/errors.ts` (`handleError`): the central normalizer. The
`instanceof` chain of the source (HevyApiError, then ZodError, then
ValidationError, then Error, then the unknown fallback) is total on the
dynamic type of the thrown value, which this match reproduces. -/
def handleError : ThrownValue → McpToolResponse
  | .hevyApiError message status data => formatHevyApiError message status data
  | .zodError issues => formatValidationError issues
  | .validationError message => formatValidationErrorMessage message
  | .genericError message =>
    { content := [{ type := "text", text := "❌ Error: " ++ message }], isError := true }
  | .nonError =>
    { content := [{ type := "text", text := "❌ An unknown error occurred" }], isError := true }

/-- The `create_workout` tool handler of the current agent: validate the
workout data, then transform and issue the upstream POST. `.error m` models
the catch branch returning `handleError(new ValidationError(m))` with no
upstream request made; `.ok body` models the upstream request being issued
with `body`. -/
def create_workout_tool (localOffsetMin : Int) (args : CreateWorkout) :
    Except String APIWorkoutEnvelope :=
  match validateWorkoutData localOffsetMin args with
  | .error m => .error m
  | .ok _ => .ok (transformWorkoutToAPI args)

/-- The `update_workout` tool handler: identical pipeline on the argument
object with `workout_id` split off; the upstream PUT targets `workout_id`. -/
def update_workout_tool (localOffsetMin : Int) (workout_id : String) (args : CreateWorkout) :
    Except String (String × APIWorkoutEnvelope) :=
  match validateWorkoutData localOffsetMin args with
  | .error m => .error m
  | .ok _ => .ok (workout_id, transformWorkoutToAPI args)

/-- The `get_workouts` tool handler: Zod defaults `page = 1`,
`page_size = 10`; `validatePagination` against `PAGINATION_LIMITS.WORKOUTS`;
on success the upstream GET carries these query parameters. -/
def get_workouts_tool (page page_size : Option ℚ) : Except String (List (String × String)) :=
  let p := page.getD 1
  let s := page_size.getD 10
  match validatePagination p s PAGINATION_LIMITS_WORKOUTS with
  | .error m => .error m
  | .ok _ => .ok [("page", toString p), ("pageSize", toString s)]

/-- The `get_routines` tool handler: Zod defaults `page = 1`,
`page_size = 5`; limit `PAGINATION_LIMITS.ROUTINES`. -/
def get_routines_tool (page page_size : Option ℚ) : Except String (List (String × String)) :=
  let p := page.getD 1
  let s := page_size.getD 5
  match validatePagination p s PAGINATION_LIMITS_ROUTINES with
  | .error m => .error m
  | .ok _ => .ok [("page", toString p), ("pageSize", toString s)]

/-- The `get_exercise_templates` tool handler: Zod defaults `page = 1`,
`page_size = 20`; limit `PAGINATION_LIMITS.EXERCISE_TEMPLATES`. -/
def get_exercise_templates_tool (page page_size : Option ℚ) :
    Except String (List (String × String)) :=
  let p := page.getD 1
  let s := page_size.getD 20
  match validatePagination p s PAGINATION_LIMITS_EXERCISE_TEMPLATES with
  | .error m => .error m
  | .ok _ => .ok [("page", toString p), ("pageSize", toString s)]

/-- The `get_routine_folders` tool handler: Zod defaults `page = 1`,
`page_size = 10`; limit `PAGINATION_LIMITS.ROUTINE_FOLDERS`. -/
def get_routine_folders_tool (page page_size : Option ℚ) :
    Except String (List (String × String)) :=
  let p := page.getD 1
  let s := page_size.getD 10
  match validatePagination p s PAGINATION_LIMITS_ROUTINE_FOLDERS with
  | .error m => .error m
  | .ok _ => .ok [("page", toString p), ("pageSize", toString s)]

/-- The `get_workout_events` tool handler of the current agent: its only
argument is `since` (a required ISO-8601 string); it validates the date and
calls `client.getWorkoutEvents({ since })`, so the upstream query carries
only `since` — the handler has no pagination parameters and performs no
pagination validation. -/
def get_workout_events_tool (localOffsetMin : Int) (since : String) :
    Except String (List (String × String)) :=
  match validateISO8601Date localOffsetMin since "since" with
  | .error m => .error m
  | .ok _ => .ok [("since", since)]

/-- A well-formed sample set (bench press, 100 kg × 10 at RPE 8). -/
def sampleSet : WSet :=
  { type := .val "normal"
    weight_kg := .val 100
    reps := .val 10
    distance_meters := .undef
    duration_seconds := .undef
    custom_metric := .undef
    rpe := .val 8
    index := .undef }

/-- A well-formed sample exercise. -/
def sampleExercise : WExercise :=
  { title := .val "Bench Press"
    exercise_template_id := .val "05293BCA"
    superset_id := .null
    notes := .val "felt strong"
    sets := [sampleSet]
    index := .undef
    id := .undef }

/-- A well-formed sample create-workout request. -/
def sampleWorkout : CreateWorkout :=
  { title := "Morning Workout"
    description := .val ""
    start_time := "2024-01-15T10:00:00Z"
    end_time := "2024-01-15T11:00:00Z"
    routine_id := .null
    is_private := false
    exercises := [sampleExercise]
    id := .undef }

/-- The sample workout with the first set's weight at −10 kg. -/
def negWeightWorkout : CreateWorkout :=
  { sampleWorkout with
    exercises := [{ sampleExercise with sets := [{ sampleSet with weight_kg := .val (-10) }] }] }

/-- The sample workout with an empty title. -/
def emptyTitleWorkout : CreateWorkout :=
  { sampleWorkout with title := "" }

/-- A sample create-routine request (the `folder_id` key present). -/
def sampleRoutine : RoutineReq :=
  { title := "Push Day"
    notes := .val ""
    folder_id := some (.val 1)
    exercises :=
      [{ exercise_template_id := .val "05293BCA"
         superset_id := .null
         rest_seconds := .val 0
         notes := .undef
         sets :=
           [{ type := .val "normal"
              weight_kg := .val 0
              reps := .val 10
              distance_meters := .undef
              duration_seconds := .undef
              custom_metric := .undef
              rep_range := .val { start := .val 8, end_ := .val 12 } }] }] }

/-- Spec-side restatement of claim C5's per-set conditions: the set type is a
member of the closed type set, a present effort rating is a member of the
closed RPE set, and every present numeric metric is ≥ 0. -/
def specSetOK (s : WSet) : Bool :=
  (match s.type with | .val t => validSetTypes.contains t | _ => false) &&
  (match s.rpe with | .val r => ratElem r validRPEValues | _ => true) &&
  (match s.weight_kg with | .val x => decide (0 ≤ x) | _ => true) &&
  (match s.reps with | .val x => decide (0 ≤ x) | _ => true) &&
  (match s.distance_meters with | .val x => decide (0 ≤ x) | _ => true) &&
  (match s.duration_seconds with | .val x => decide (0 ≤ x) | _ => true) &&
  (match s.custom_metric with | .val x => decide (0 ≤ x) | _ => true)

/-- Spec-side restatement of claim C5's per-exercise conditions: non-empty
title, non-empty template reference, non-empty sets array, and every set
acceptable. -/
def specExerciseOK (e : WExercise) : Bool :=
  (match e.title with | .val t => decide (t ≠ "") | _ => false) &&
  (match e.exercise_template_id with | .val t => decide (t ≠ "") | _ => false) &&
  decide (e.sets ≠ []) &&
  e.sets.all specSetOK

/-- The sample exercise with an out-of-set effort rating of 6.5. -/
def rpeHalfExercise : WExercise :=
  { sampleExercise with sets := [{ sampleSet with rpe := .val (mkRat 13 2) }] }

/-- The sample exercise with an out-of-set effort rating of 5. -/
def rpeLowExercise : WExercise :=
  { sampleExercise with sets := [{ sampleSet with rpe := .val 5 }] }

/-- The sample exercise with an out-of-set effort rating of 11. -/
def rpeHighExercise : WExercise :=
  { sampleExercise with sets := [{ sampleSet with rpe := .val 11 }] }

/-- Spec-side restatement of claim C6 for a string-valued optional field:
the key is absent exactly when the source was `undefined`, `null`, or an
empty/whitespace-only string; a kept value is kept verbatim; the key is
never emitted with value `null`. -/
def specAbsentStr (src : JsOpt String) (out : Option (JsOpt String)) : Prop :=
  (out = none ↔ src = .undef ∨ src = .null ∨ ∃ s, src = .val s ∧ jsTrim s = "") ∧
  (∀ s, out = some (.val s) ↔ src = .val s ∧ ¬ jsTrim s = "") ∧
  out ≠ some .null

/-- Spec-side restatement of claim C6 for a number-valued optional field:
the key is absent exactly when the source was `undefined` or `null`; any
present value — zero included — is kept verbatim; the key is never emitted
with value `null`. -/
def specAbsentNum (src : JsOpt ℚ) (out : Option (JsOpt ℚ)) : Prop :=
  (out = none ↔ src = .undef ∨ src = .null) ∧
  (∀ x, out = some (.val x) ↔ src = .val x) ∧
  out ≠ some .null

/-- The sample routine in update shape (no `folder_id` key). -/
def sampleRoutineUpdate : RoutineReq :=
  { sampleRoutine with folder_id := none }

end HevyMcp

namespace HevyMcp

lemma seqE_ok_iff (a b : Except String Unit) :
    seqE a b = .ok () ↔ a = .ok () ∧ b = .ok () := by
  cases a with
  | error m => simp [seqE]
  | ok u => cases u; simp [seqE]

lemma validateISO8601Date_ok (tz : Int) (s f : String) :
    validateISO8601Date tz s f = .ok () ↔ (jsParseISO tz s).isSome := by
  unfold validateISO8601Date jsParseISO
  cases hp : parseISO s with
  | none => simp
  | some r =>
    cases hm : isoToMs tz r with
    | none => simp [hm]
    | some v => simp [hm]

/-- C1: every thrown failure value — an upstream `HevyApiError` of any HTTP
status, a domain `ValidationError` (such as "At least one exercise is
required"), a `ZodError`, a plain `Error`, or a non-`Error` thrown value —
is mapped by `handleError` (a total function: it never throws) to the one
uniform shape: a non-empty content array whose entries are all text entries,
with `isError` set to `true`. -/
theorem handleError_uniform (e : ThrownValue) :
    (handleError e).isError = true ∧
    (handleError e).content.length = 1 ∧
    ∀ c ∈ (handleError e).content, c.type = "text" := by
  cases e <;>
    simp [handleError, formatHevyApiError, formatValidationError,
      formatValidationErrorMessage, mkErrorResponse]

/-- C2: whenever domain validation of a create-workout or update-workout
argument object fails, the tool handler returns that validation failure and
issues no upstream request (the transformer's output never appears); in
particular, the sample workout whose set has `weight_kg = -10` fails with
the message "Exercise 0, Set 0: weight_kg cannot be negative", which
contains "cannot be negative", and no request is issued for it. -/
theorem create_workout_validates_before_network (tz : Int) (wid : String)
    (w : CreateWorkout) :
    (∀ m, validateWorkoutData tz w = .error m →
      create_workout_tool tz w = .error m ∧ update_workout_tool tz wid w = .error m) ∧
    create_workout_tool 0 negWeightWorkout =
      .error "Exercise 0, Set 0: weight_kg cannot be negative" ∧
    containsSubstr "Exercise 0, Set 0: weight_kg cannot be negative" "cannot be negative" = true := by
  refine ⟨fun m hm => ?_, by decide, by decide⟩
  constructor
  · unfold create_workout_tool
    rw [hm]
  · unfold update_workout_tool
    rw [hm]

/-- Witness for C2: the negative-weight workout concretely takes the
validation-failure branch of both handlers. -/
theorem create_workout_validates_before_network_witness :
    create_workout_tool 0 negWeightWorkout =
      .error "Exercise 0, Set 0: weight_kg cannot be negative" ∧
    update_workout_tool 0 "w1" negWeightWorkout =
      .error "Exercise 0, Set 0: weight_kg cannot be negative" :=
  ⟨((create_workout_validates_before_network 0 "w1" negWeightWorkout).1
      "Exercise 0, Set 0: weight_kg cannot be negative" (by decide)).1,
   ((create_workout_validates_before_network 0 "w1" negWeightWorkout).1
      "Exercise 0, Set 0: weight_kg cannot be negative" (by decide)).2⟩

/-- C3: `validatePagination` succeeds exactly when `page ≥ 1` and
`1 ≤ pageSize ≤ maxPageSize`; otherwise the first violated bound (in the
order page ≥ 1, pageSize ≥ 1, pageSize ≤ maxPageSize) determines the
`ValidationError` message, which names that bound. -/
theorem validatePagination_correct (page pageSize maxPageSize : ℚ) :
    (validatePagination page pageSize maxPageSize = .ok () ↔
      1 ≤ page ∧ 1 ≤ pageSize ∧ pageSize ≤ maxPageSize) ∧
    (page < 1 →
      validatePagination page pageSize maxPageSize =
        .error ("Page must be 1 or greater, got " ++ toString page)) ∧
    (1 ≤ page → pageSize < 1 →
      validatePagination page pageSize maxPageSize =
        .error ("Page size must be at least 1, got " ++ toString pageSize)) ∧
    (1 ≤ page → 1 ≤ pageSize → maxPageSize < pageSize →
      validatePagination page pageSize maxPageSize =
        .error ("Page size cannot exceed " ++ toString maxPageSize ++
          ", got " ++ toString pageSize)) := by
  unfold validatePagination
  refine ⟨?_, ?_, ?_, ?_⟩
  · constructor
    · intro h
      by_cases h1 : page < 1
      · simp [h1] at h
      · by_cases h2 : pageSize < 1
        · simp [h1, h2] at h
        · by_cases h3 : pageSize > maxPageSize
          · simp [h1, h2, h3] at h
          · exact ⟨le_of_not_lt h1, le_of_not_lt h2, le_of_not_lt h3⟩
    · rintro ⟨h1, h2, h3⟩
      rw [if_neg (not_lt.mpr h1), if_neg (not_lt.mpr h2), if_neg (not_lt.mpr h3)]
  · intro h1
    rw [if_pos h1]
  · intro h1 h2
    rw [if_neg (not_lt.mpr h1), if_pos h2]
  · intro h1 h2 h3
    rw [if_neg (not_lt.mpr h1), if_neg (not_lt.mpr h2), if_pos h3]

/-- Witness for C3: concrete instances of each branch of
`validatePagination_correct`. -/
theorem validatePagination_correct_witness :
    validatePagination 1 10 10 = .ok () ∧
    validatePagination 0 10 10 = .error ("Page must be 1 or greater, got " ++ toString (0 : ℚ)) ∧
    validatePagination 1 0 10 = .error ("Page size must be at least 1, got " ++ toString (0 : ℚ)) ∧
    validatePagination 1 11 10 =
      .error ("Page size cannot exceed " ++ toString (10 : ℚ) ++ ", got " ++ toString (11 : ℚ)) :=
  ⟨(validatePagination_correct 1 10 10).1.mpr (by norm_num),
   (validatePagination_correct 0 10 10).2.1 (by norm_num),
   (validatePagination_correct 1 0 10).2.2.1 (by norm_num) (by norm_num),
   (validatePagination_correct 1 11 10).2.2.2 (by norm_num) (by norm_num) (by norm_num)⟩

end HevyMcp

namespace HevyMcp

/-- C4: for strings that both parse as valid ISO-8601 dates (pattern match
plus calendar validity, i.e. `jsParseISO` succeeds), the workout date
validation succeeds iff the end instant is strictly greater than the start
instant, and equal instants fail with the message
"end_time must be after start_time" (which contains "must be after"); a
start or end string that fails the pattern or parses to an invalid calendar
date always fails validation, regardless of ordering. -/
theorem validateWorkoutDates_correct (tz : Int) (st et : String) :
    (∀ a b : Int, jsParseISO tz st = some a → jsParseISO tz et = some b →
      ((validateWorkoutDates tz st et = .ok ()) ↔ a < b) ∧
      (a = b → validateWorkoutDates tz st et =
        .error "end_time must be after start_time")) ∧
    (jsParseISO tz st = none → validateWorkoutDates tz st et ≠ .ok ()) ∧
    (jsParseISO tz et = none → validateWorkoutDates tz st et ≠ .ok ()) ∧
    containsSubstr "end_time must be after start_time" "must be after" = true := by
  refine ⟨fun a b ha hb => ?_, fun h hok => ?_, fun h hok => ?_, by decide⟩
  · have hst : validateISO8601Date tz st "start_time" = .ok () :=
      (validateISO8601Date_ok tz st "start_time").mpr (by simp [ha])
    have het : validateISO8601Date tz et "end_time" = .ok () :=
      (validateISO8601Date_ok tz et "end_time").mpr (by simp [hb])
    have hcmp : compareWorkoutDates tz st et =
        (if b ≤ a then .error "end_time must be after start_time" else .ok ()) := by
      unfold compareWorkoutDates
      rw [ha, hb]
    unfold validateWorkoutDates
    rw [hst, het]
    constructor
    · by_cases hba : b ≤ a
      · simp [seqE, hcmp, hba, not_lt.mpr hba]
      · simp [seqE, hcmp, hba, lt_of_not_le hba]
    · intro hab
      simp [seqE, hcmp, hab]
  · rw [validateWorkoutDates, seqE_ok_iff] at hok
    have := (validateISO8601Date_ok tz st "start_time").mp hok.1
    rw [h] at this
    simp at this
  · rw [validateWorkoutDates, seqE_ok_iff, seqE_ok_iff] at hok
    have := (validateISO8601Date_ok tz et "end_time").mp hok.2.1
    rw [h] at this
    simp at this

/-- Witness for C4: a strictly later end succeeds; an equal pair fails with
the "must be after" message; an unparsable end string and an invalid
calendar start date (February 30) both fail. -/
theorem validateWorkoutDates_correct_witness :
    validateWorkoutDates 0 "2024-01-15T10:00:00Z" "2024-01-15T11:00:00Z" = .ok () ∧
    validateWorkoutDates 0 "2024-01-15T10:00:00Z" "2024-01-15T10:00:00Z" =
      .error "end_time must be after start_time" ∧
    validateWorkoutDates 0 "2024-01-15T10:00:00Z" "not-a-date" ≠ .ok () ∧
    validateWorkoutDates 0 "2024-02-30T10:00:00Z" "2024-03-01T00:00:00Z" ≠ .ok () :=
  ⟨((validateWorkoutDates_correct 0 "2024-01-15T10:00:00Z" "2024-01-15T11:00:00Z").1
      1705312800000 1705316400000 (by decide) (by decide)).1.mpr (by decide),
   ((validateWorkoutDates_correct 0 "2024-01-15T10:00:00Z" "2024-01-15T10:00:00Z").1
      1705312800000 1705312800000 (by decide) (by decide)).2 rfl,
   (validateWorkoutDates_correct 0 "2024-01-15T10:00:00Z" "not-a-date").2.2.1 (by decide),
   (validateWorkoutDates_correct 0 "2024-02-30T10:00:00Z" "2024-03-01T00:00:00Z").2.1 (by decide)⟩

end HevyMcp

namespace HevyMcp

lemma checkNonNeg_ok (i j : Nat) (n : String) (v : JsOpt ℚ) :
    checkNonNeg i j n v = .ok () ↔
      (match v with | .val x => decide (0 ≤ x) | _ => true) = true := by
  cases v with
  | undef => simp [checkNonNeg]
  | null => simp [checkNonNeg]
  | val x =>
    by_cases h : x < 0
    · simp [checkNonNeg, h, not_le.mpr h]
    · simp [checkNonNeg, h, not_lt.mp h]

lemma checkRPE_ok (i j : Nat) (v : JsOpt ℚ) :
    checkRPE i j v = .ok () ↔
      (match v with | .val r => ratElem r validRPEValues | _ => true) = true := by
  cases v with
  | undef => simp [checkRPE]
  | null => simp [checkRPE]
  | val r =>
    by_cases h : ratElem r validRPEValues = true
    · simp [checkRPE, validateRPE, h]
    · simp [checkRPE, validateRPE, h]

lemma validateWSet_ok (i j : Nat) (s : WSet) :
    validateWSet i j s = .ok () ↔ specSetOK s = true := by
  unfold validateWSet specSetOK
  cases htype : s.type with
  | undef => simp
  | null => simp
  | val t =>
    dsimp only
    by_cases ht : t = ""
    · have : validSetTypes.contains t = false := by subst ht; decide
      simp [ht, this]
      exact fun h => absurd h (by decide)
    · by_cases hc : validSetTypes.contains t = true
      · rw [if_neg ht]
        rw [if_neg (by simpa using hc : ¬ validSetTypes.contains t = false)]
        rw [seqE_ok_iff, seqE_ok_iff, seqE_ok_iff, seqE_ok_iff, seqE_ok_iff,
          checkRPE_ok, checkNonNeg_ok, checkNonNeg_ok, checkNonNeg_ok,
          checkNonNeg_ok, checkNonNeg_ok]
        simp only [hc, Bool.true_and, Bool.and_eq_true, and_assoc]
      · have hcf : validSetTypes.contains t = false := by simpa using hc
        rw [if_neg ht, if_pos hcf]
        simp [hcf]
        exact fun h => absurd h (by simpa using hc)

lemma validateSetList_ok (i : Nat) (ls : List WSet) :
    ∀ j, validateSetList i j ls = .ok () ↔ ls.all specSetOK = true := by
  induction ls with
  | nil => intro j; simp [validateSetList]
  | cons s rest ih =>
    intro j
    simp [validateSetList, seqE_ok_iff, validateWSet_ok, ih, Bool.and_eq_true]

lemma truthy_match_eq (x : JsOpt String) :
    (match x with | .val t => decide (t ≠ "") | _ => false) = truthyStr x := by
  cases x <;> rfl

lemma validateWExercise_ok (i : Nat) (e : WExercise) :
    validateWExercise i e = .ok () ↔ specExerciseOK e = true := by
  unfold validateWExercise specExerciseOK
  rw [truthy_match_eq e.title, truthy_match_eq e.exercise_template_id]
  by_cases h1 : truthyStr e.title = true
  · by_cases h2 : truthyStr e.exercise_template_id = true
    · by_cases h3 : e.sets.isEmpty = true
      · have hs : e.sets = [] := by simpa [List.isEmpty_iff] using h3
        rw [if_neg (by simp [h1]), if_neg (by simp [h2]), if_pos h3]
        simp [h1, h2, hs]
      · have hne : e.sets ≠ [] := by simpa [List.isEmpty_iff] using h3
        rw [if_neg (by simp [h1]), if_neg (by simp [h2]), if_neg h3,
          validateSetList_ok]
        simp [h1, h2, hne, Bool.and_eq_true]
    · have h2f : truthyStr e.exercise_template_id = false := by simpa using h2
      rw [if_neg (by simp [h1]), if_pos h2f]
      simp [h1, h2f]
  · have h1f : truthyStr e.title = false := by simpa using h1
    rw [if_pos h1f]
    simp [h1f]

lemma validateExerciseList_ok (l : List WExercise) :
    ∀ i, validateExerciseList i l = .ok () ↔ l.all specExerciseOK = true := by
  induction l with
  | nil => intro i; simp [validateExerciseList]
  | cons e rest ih =>
    intro i
    simp [validateExerciseList, seqE_ok_iff, validateWExercise_ok, ih, Bool.and_eq_true]

/-- C5: `validateWorkoutExercises` succeeds exactly when the list is
non-empty and every element has a non-empty title, a non-empty
`exercise_template_id`, a non-empty sets array, and each set has a type in
{warmup, normal, failure, dropset}, a present `rpe` in
{6, 7, 7.5, 8, 8.5, 9, 9.5, 10}, and no present negative metric; the checks
run in that order over the elements in array order — an empty list reports
"At least one exercise is required", and a falsy first title is reported
for index 0 before anything else is examined. -/
theorem validateWorkoutExercises_correct (l : List WExercise) :
    (validateWorkoutExercises l = .ok () ↔ l ≠ [] ∧ l.all specExerciseOK = true) ∧
    (l = [] → validateWorkoutExercises l = .error "At least one exercise is required") ∧
    (∀ e rest, l = e :: rest → truthyStr e.title = false →
      validateWorkoutExercises l =
        .error "Exercise at index 0 is missing required field: title") := by
  refine ⟨?_, ?_, ?_⟩
  · cases l with
    | nil => simp [validateWorkoutExercises]
    | cons e rest =>
      rw [validateWorkoutExercises]
      simp only [List.isEmpty_cons, if_false, Bool.false_eq_true]
      rw [validateExerciseList_ok]
      simp
  · intro h
    subst h
    rfl
  · intro e rest hl htitle
    subst hl
    rw [validateWorkoutExercises]
    simp only [List.isEmpty_cons, Bool.false_eq_true, if_false]
    rw [validateExerciseList, validateWExercise]
    rw [htitle]
    rfl

/-- Witness for C5: the sample exercise list passes; the empty list and the
out-of-set effort ratings 6.5, 5 and 11 fail; a falsy first title is
reported for index 0. -/
theorem validateWorkoutExercises_correct_witness :
    validateWorkoutExercises [sampleExercise] = .ok () ∧
    validateWorkoutExercises [] = .error "At least one exercise is required" ∧
    validateWorkoutExercises [rpeHalfExercise] ≠ .ok () ∧
    validateWorkoutExercises [rpeLowExercise] ≠ .ok () ∧
    validateWorkoutExercises [rpeHighExercise] ≠ .ok () ∧
    validateWorkoutExercises [{ sampleExercise with title := .val "" }] =
      .error "Exercise at index 0 is missing required field: title" :=
  ⟨(validateWorkoutExercises_correct [sampleExercise]).1.mpr ⟨by decide, by decide⟩,
   (validateWorkoutExercises_correct []).2.1 rfl,
   fun h => absurd ((validateWorkoutExercises_correct [rpeHalfExercise]).1.mp h).2 (by decide),
   fun h => absurd ((validateWorkoutExercises_correct [rpeLowExercise]).1.mp h).2 (by decide),
   fun h => absurd ((validateWorkoutExercises_correct [rpeHighExercise]).1.mp h).2 (by decide),
   (validateWorkoutExercises_correct _).2.2 _ [] rfl (by decide)⟩

end HevyMcp

namespace HevyMcp

lemma emitStr_spec (j : JsOpt String) : specAbsentStr j (emitStr j) := by
  unfold specAbsentStr emitStr cleanStr dropUndef
  cases j with
  | undef => simp
  | null => simp
  | val s =>
    by_cases h : jsTrim s = ""
    · simp [h]
    · simp [h]

lemma emitNum_spec (j : JsOpt ℚ) : specAbsentNum j (emitNum j) := by
  unfold specAbsentNum emitNum cleanNum dropUndef
  cases j with
  | undef => simp
  | null => simp
  | val x => simp

/-- C6: in the transformed workout and routine payloads every optional key
is absent exactly when the source value was `undefined`, `null`, or (for
string fields) an empty/whitespace-only string; no optional key is ever
emitted with value `null`; and every other present value — numeric 0 for
`weight_kg`, `reps`, `rest_seconds` or `superset_id` included — is kept
verbatim under its key. Required fields and the exercise/set arrays pass
through structurally. -/
theorem transform_optional_fields_correct (w : CreateWorkout) (e : WExercise) (s : WSet)
    (r : RoutineReq) (re : RExercise) (rs : RSet) :
    (transformWorkoutToAPI w).workout.exercises = w.exercises.map transformWExercise ∧
    (transformWorkoutToAPI w).workout.title = w.title ∧
    specAbsentStr w.description (transformWorkoutToAPI w).workout.description ∧
    specAbsentStr w.routine_id (transformWorkoutToAPI w).workout.routine_id ∧
    (transformWExercise e).sets = e.sets.map transformWSet ∧
    specAbsentNum e.superset_id (transformWExercise e).superset_id ∧
    specAbsentStr e.notes (transformWExercise e).notes ∧
    specAbsentNum s.weight_kg (transformWSet s).weight_kg ∧
    specAbsentNum s.reps (transformWSet s).reps ∧
    specAbsentNum s.distance_meters (transformWSet s).distance_meters ∧
    specAbsentNum s.duration_seconds (transformWSet s).duration_seconds ∧
    specAbsentNum s.custom_metric (transformWSet s).custom_metric ∧
    specAbsentNum s.rpe (transformWSet s).rpe ∧
    (transformRoutineToAPI r).routine.exercises = r.exercises.map transformRExercise ∧
    specAbsentStr r.notes (transformRoutineToAPI r).routine.notes ∧
    (r.folder_id = none → (transformRoutineToAPI r).routine.folder_id = none) ∧
    (∀ j, r.folder_id = some j →
      (transformRoutineToAPI r).routine.folder_id = emitNum j ∧
      specAbsentNum j (emitNum j)) ∧
    specAbsentNum re.superset_id (transformRExercise re).superset_id ∧
    specAbsentNum re.rest_seconds (transformRExercise re).rest_seconds ∧
    specAbsentStr re.notes (transformRExercise re).notes ∧
    (transformRExercise re).sets = re.sets.map transformRSet ∧
    specAbsentNum rs.weight_kg (transformRSet rs).weight_kg ∧
    specAbsentNum rs.reps (transformRSet rs).reps ∧
    specAbsentNum rs.distance_meters (transformRSet rs).distance_meters ∧
    specAbsentNum rs.duration_seconds (transformRSet rs).duration_seconds ∧
    specAbsentNum rs.custom_metric (transformRSet rs).custom_metric ∧
    ((transformRSet rs).rep_range = none ↔ rs.rep_range = .undef ∨ rs.rep_range = .null) ∧
    (∀ rr, rs.rep_range = .val rr →
      (transformRSet rs).rep_range =
        some { start := emitNum rr.start, end_ := emitNum rr.end_ } ∧
      specAbsentNum rr.start (emitNum rr.start) ∧
      specAbsentNum rr.end_ (emitNum rr.end_)) := by
  refine ⟨rfl, rfl, emitStr_spec _, emitStr_spec _, rfl, emitNum_spec _, emitStr_spec _,
    emitNum_spec _, emitNum_spec _, emitNum_spec _, emitNum_spec _, emitNum_spec _,
    emitNum_spec _, rfl, emitStr_spec _, ?_, ?_, emitNum_spec _, emitNum_spec _,
    emitStr_spec _, rfl, emitNum_spec _, emitNum_spec _, emitNum_spec _, emitNum_spec _,
    emitNum_spec _, ?_, ?_⟩
  · intro h
    simp [transformRoutineToAPI, h]
  · intro j h
    exact ⟨by simp [transformRoutineToAPI, h], emitNum_spec j⟩
  · show transformRepRange rs.rep_range = none ↔ _
    cases rs.rep_range <;> simp [transformRepRange]
  · intro rr h
    exact ⟨by simp [transformRSet, transformRepRange, h], emitNum_spec rr.start,
      emitNum_spec rr.end_⟩

/-- Witness for C6: the sample routine keeps its present `folder_id` key and
the update-shaped routine has no `folder_id`; a whitespace-only description
is omitted; a present rep range is kept with cleaned bounds. -/
theorem transform_optional_fields_correct_witness :
    ((transformRoutineToAPI sampleRoutine).routine.folder_id = emitNum (.val 1) ∧
      specAbsentNum (.val 1) (emitNum (.val 1))) ∧
    (transformRoutineToAPI sampleRoutineUpdate).routine.folder_id = none ∧
    specAbsentStr (.val " ")
      (transformWorkoutToAPI { sampleWorkout with description := .val " " }).workout.description :=
  ⟨(transform_optional_fields_correct sampleWorkout sampleExercise sampleSet
      sampleRoutine (⟨.val "x", .undef, .undef, .undef, []⟩ : RExercise)
      (⟨.undef, .undef, .undef, .undef, .undef, .undef, .undef⟩ : RSet)).2.2.2.2.2.2.2.2.2.2.2.2.2.2.2.2.1
      (.val 1) rfl,
   (transform_optional_fields_correct sampleWorkout sampleExercise sampleSet
      sampleRoutineUpdate (⟨.val "x", .undef, .undef, .undef, []⟩ : RExercise)
      (⟨.undef, .undef, .undef, .undef, .undef, .undef, .undef⟩ : RSet)).2.2.2.2.2.2.2.2.2.2.2.2.2.2.2.1 rfl,
   (transform_optional_fields_correct { sampleWorkout with description := .val " " }
      sampleExercise sampleSet sampleRoutine (⟨.val "x", .undef, .undef, .undef, []⟩ : RExercise)
      (⟨.undef, .undef, .undef, .undef, .undef, .undef, .undef⟩ : RSet)).2.2.1⟩

end HevyMcp

namespace HevyMcp

lemma transformWSet_erase (s : WSet) :
    transformWSet (eraseEchoedSet s) = transformWSet s := rfl

lemma transformWExercise_erase (e : WExercise) :
    transformWExercise (eraseEchoedExercise e) = transformWExercise e := by
  simp only [transformWExercise, eraseEchoedExercise, List.map_map]
  rfl

lemma dropUndef_embed {α : Type} (x : JsOpt α) :
    dropUndef (readOpt (dropUndef x)) = dropUndef x := by
  cases x <;> rfl

lemma emitStr_embed (x : JsOpt String) :
    emitStr (readOpt (emitStr x)) = emitStr x := by
  unfold emitStr cleanStr dropUndef readOpt
  cases x with
  | undef => rfl
  | null => rfl
  | val s =>
    by_cases h : jsTrim s = ""
    · simp [h]
    · simp [h]

lemma emitNum_embed (x : JsOpt ℚ) :
    emitNum (readOpt (emitNum x)) = emitNum x := by
  cases x <;> rfl

lemma transformWSet_embed (s : WSet) :
    transformWSet (embedAPIWSet (transformWSet s)) = transformWSet s := by
  simp only [transformWSet, embedAPIWSet]
  simp [dropUndef_embed, emitNum_embed]

lemma transformWExercise_embed (e : WExercise) :
    transformWExercise (embedAPIWExercise (transformWExercise e)) = transformWExercise e := by
  simp only [transformWExercise, embedAPIWExercise, List.map_map]
  simp [dropUndef_embed, emitNum_embed, emitStr_embed]
  exact fun s _ => transformWSet_embed s

lemma validateWorkoutExercises_head_title (x : WExercise) (xs : List WExercise)
    (h : truthyStr x.title = false) :
    validateWorkoutExercises (x :: xs) =
      .error "Exercise at index 0 is missing required field: title" := by
  rw [validateWorkoutExercises]
  simp only [List.isEmpty_cons, Bool.false_eq_true, if_false]
  rw [validateExerciseList, validateWExercise, h]
  rfl

end HevyMcp

namespace HevyMcp

/-- C7 (amended): transforming a workout is independent of the echoed
upstream-only fields (server id, positional indices, per-exercise display
title) — the produced payload contains none of them — and re-transforming
the transformed payload (read back as a plain object) is a no-op, i.e. the
transform is a stable fixed point on its own image; re-validating that
transformed output, however, fails: for any workout that validated
successfully the image is rejected for its stripped display title. -/
theorem transform_roundtrip_correct :
    (∀ w, transformWorkoutToAPI (eraseEchoedWorkout w) = transformWorkoutToAPI w) ∧
    (∀ w, transformWorkoutToAPI (embedAPIWorkout (transformWorkoutToAPI w)) =
      transformWorkoutToAPI w) ∧
    (∀ (tz : Int) (w : CreateWorkout), validateWorkoutData tz w = .ok () →
      validateWorkoutData tz (embedAPIWorkout (transformWorkoutToAPI w)) =
        .error "Exercise at index 0 is missing required field: title") := by
  refine ⟨fun w => ?_, fun w => ?_, fun tz w hok => ?_⟩
  · have hmap : (w.exercises.map eraseEchoedExercise).map transformWExercise =
        w.exercises.map transformWExercise := by
      rw [List.map_map]
      exact List.map_congr_left fun e _ => transformWExercise_erase e
    simp [transformWorkoutToAPI, eraseEchoedWorkout, hmap]
  · have hmap : ((w.exercises.map transformWExercise).map embedAPIWExercise).map
        transformWExercise = w.exercises.map transformWExercise := by
      rw [List.map_map, List.map_map]
      exact List.map_congr_left fun e _ => transformWExercise_embed e
    simp [transformWorkoutToAPI, embedAPIWorkout, hmap, emitStr_embed]
    exact fun e _ => transformWExercise_embed e
  · rw [validateWorkoutData, seqE_ok_iff] at hok
    obtain ⟨hdates, hex⟩ := hok
    have hne : w.exercises ≠ [] := by
      intro hnil
      rw [validateWorkoutExercises, hnil] at hex
      simp at hex
    obtain ⟨e, rest, hcons⟩ := List.exists_cons_of_ne_nil hne
    rw [validateWorkoutData]
    have hemb : (embedAPIWorkout (transformWorkoutToAPI w)).start_time = w.start_time ∧
        (embedAPIWorkout (transformWorkoutToAPI w)).end_time = w.end_time := ⟨rfl, rfl⟩
    rw [hemb.1, hemb.2, hdates]
    have : (embedAPIWorkout (transformWorkoutToAPI w)).exercises =
        (w.exercises.map transformWExercise).map embedAPIWExercise := rfl
    rw [show seqE (Except.ok ()) (validateWorkoutExercises
        (embedAPIWorkout (transformWorkoutToAPI w)).exercises) =
        validateWorkoutExercises
          (embedAPIWorkout (transformWorkoutToAPI w)).exercises from rfl]
    rw [this, hcons]
    exact validateWorkoutExercises_head_title _ _ rfl

/-- Witness for C7 (amended): the sample workout validates, and its
transformed image re-validates to the missing-title error while
re-transforming it reproduces the same payload. -/
theorem transform_roundtrip_correct_witness :
    transformWorkoutToAPI (embedAPIWorkout (transformWorkoutToAPI sampleWorkout)) =
      transformWorkoutToAPI sampleWorkout ∧
    validateWorkoutData 0 (embedAPIWorkout (transformWorkoutToAPI sampleWorkout)) =
      .error "Exercise at index 0 is missing required field: title" :=
  ⟨transform_roundtrip_correct.2.1 sampleWorkout,
   transform_roundtrip_correct.2.2 0 sampleWorkout (by decide)⟩

/-- C7 counterexample: re-validating the transformed output of the (valid)
sample workout is not a no-op — it fails on the stripped display title — so
the claimed "re-validate then re-transform is a no-op" round trip does not
hold as stated. -/
theorem transform_revalidate_fails :
    validateWorkoutData 0 sampleWorkout = .ok () ∧
    validateWorkoutData 0 (embedAPIWorkout (transformWorkoutToAPI sampleWorkout)) =
      .error "Exercise at index 0 is missing required field: title" := by
  constructor
  · decide
  · decide

end HevyMcp

namespace HevyMcp

/-- C8 (amended): the four paginated listing handlers enforce their
contracts through `validatePagination` before the upstream call — workouts
default 10 / max 10, routines default 5 / max 10, routine folders default
10 / max 10, exercise templates default 20 / max 100 — while the
workout-events listing of the current agent takes only a `since` date (it
exposes no pagination parameters and performs no pagination validation): the
events handler validates `since` as ISO-8601 and sends only `since`
upstream. -/
theorem listing_pagination_correct (p s : Option ℚ) (tz : Int) (since : String) :
    get_workouts_tool none none =
      .ok [("page", toString (1 : ℚ)), ("pageSize", toString (10 : ℚ))] ∧
    get_routines_tool none none =
      .ok [("page", toString (1 : ℚ)), ("pageSize", toString (5 : ℚ))] ∧
    get_exercise_templates_tool none none =
      .ok [("page", toString (1 : ℚ)), ("pageSize", toString (20 : ℚ))] ∧
    get_routine_folders_tool none none =
      .ok [("page", toString (1 : ℚ)), ("pageSize", toString (10 : ℚ))] ∧
    (∀ m, get_workouts_tool p s = .error m ↔
      validatePagination (p.getD 1) (s.getD 10) PAGINATION_LIMITS_WORKOUTS = .error m) ∧
    (∀ m, get_routines_tool p s = .error m ↔
      validatePagination (p.getD 1) (s.getD 5) PAGINATION_LIMITS_ROUTINES = .error m) ∧
    (∀ m, get_exercise_templates_tool p s = .error m ↔
      validatePagination (p.getD 1) (s.getD 20) PAGINATION_LIMITS_EXERCISE_TEMPLATES =
        .error m) ∧
    (∀ m, get_routine_folders_tool p s = .error m ↔
      validatePagination (p.getD 1) (s.getD 10) PAGINATION_LIMITS_ROUTINE_FOLDERS =
        .error m) ∧
    (validateISO8601Date tz since "since" = .ok () →
      get_workout_events_tool tz since = .ok [("since", since)]) ∧
    (∀ m, validateISO8601Date tz since "since" = .error m →
      get_workout_events_tool tz since = .error m) := by
  refine ⟨rfl, rfl, rfl, rfl, ?_, ?_, ?_, ?_, ?_, ?_⟩
  · intro m
    unfold get_workouts_tool
    cases h : validatePagination (p.getD 1) (s.getD 10) PAGINATION_LIMITS_WORKOUTS with
    | error m' => simp [h]
    | ok u => cases u; simp [h]
  · intro m
    unfold get_routines_tool
    cases h : validatePagination (p.getD 1) (s.getD 5) PAGINATION_LIMITS_ROUTINES with
    | error m' => simp [h]
    | ok u => cases u; simp [h]
  · intro m
    unfold get_exercise_templates_tool
    cases h : validatePagination (p.getD 1) (s.getD 20)
        PAGINATION_LIMITS_EXERCISE_TEMPLATES with
    | error m' => simp [h]
    | ok u => cases u; simp [h]
  · intro m
    unfold get_routine_folders_tool
    cases h : validatePagination (p.getD 1) (s.getD 10)
        PAGINATION_LIMITS_ROUTINE_FOLDERS with
    | error m' => simp [h]
    | ok u => cases u; simp [h]
  · intro h
    unfold get_workout_events_tool
    rw [h]
  · intro m h
    unfold get_workout_events_tool
    rw [h]

/-- Witness for C8 (amended): concrete default and bound checks, and the
events handler's upstream query for a valid `since`. -/
theorem listing_pagination_correct_witness :
    get_workouts_tool none none =
      .ok [("page", toString (1 : ℚ)), ("pageSize", toString (10 : ℚ))] ∧
    get_workouts_tool (some 1) (some 11) =
      .error ("Page size cannot exceed " ++ toString (10 : ℚ) ++
        ", got " ++ toString (11 : ℚ)) ∧
    get_workout_events_tool 0 "2024-01-01T00:00:00Z" =
      .ok [("since", "2024-01-01T00:00:00Z")] :=
  ⟨(listing_pagination_correct none none 0 "x").1,
   ((listing_pagination_correct (some 1) (some 11) 0 "x").2.2.2.2.1
      ("Page size cannot exceed " ++ toString (10 : ℚ) ++
        ", got " ++ toString (11 : ℚ))).mpr (by decide),
   (listing_pagination_correct none none 0 "2024-01-01T00:00:00Z").2.2.2.2.2.2.2.2.1
      (by decide)⟩

/-- C8 counterexample: the current agent's workout-events listing issues its
upstream call with no page-size parameter at all — in particular not with
the claimed default page size of 5 — its query carries only `since`. -/
theorem get_workout_events_no_pagination :
    get_workout_events_tool 0 "2024-01-01T00:00:00Z" =
      .ok [("since", "2024-01-01T00:00:00Z")] ∧
    List.lookup "pageSize" [("since", "2024-01-01T00:00:00Z")] = none := by
  exact ⟨by decide, by decide⟩

end HevyMcp

namespace HevyMcp

/-- C9 (amended): the normalizer maps 400 → "Invalid request parameters",
401 → "Unauthorized - Invalid API key" (containing "Unauthorized"),
403 → "Limit exceeded or unauthorized", 404 → "Resource not found",
429 → "Rate limit exceeded", 502 and 503 → "Hevy API is temporarily
unavailable", but 500 → "Hevy API error"; any unmapped status yields
"Unexpected error (HTTP {code})"; a 401 response opens with its headline
and its remediation bullets reference API-key configuration. -/
theorem error_status_headlines (s : Int) (m : String) (d : Option ErrorData) :
    getStatusMessage 400 = "Invalid request parameters" ∧
    getStatusMessage 401 = "Unauthorized - Invalid API key" ∧
    containsSubstr (getStatusMessage 401) "Unauthorized" = true ∧
    getStatusMessage 403 = "Limit exceeded or unauthorized" ∧
    getStatusMessage 404 = "Resource not found" ∧
    getStatusMessage 429 = "Rate limit exceeded" ∧
    getStatusMessage 500 = "Hevy API error" ∧
    getStatusMessage 502 = "Hevy API is temporarily unavailable" ∧
    getStatusMessage 503 = "Hevy API is temporarily unavailable" ∧
    (s ∉ [(400 : Int), 401, 403, 404, 429, 500, 502, 503] →
      getStatusMessage s = "Unexpected error (HTTP " ++ toString s ++ ")") ∧
    (hevyErrorParts m 401 d).head? = some ("❌ " ++ getStatusMessage 401) ∧
    "  - Verify your Hevy API key is configured at /setup" ∈ hevyErrorParts m 401 d := by
  have hadv : statusAdvice 401 =
      ["  - Verify your Hevy API key is configured at /setup",
       "  - Check that your API key is still valid",
       "  - Generate a new API key from Hevy if needed"] := by decide
  refine ⟨by decide, by decide, by decide, by decide, by decide, by decide, by decide,
    by decide, by decide, ?_, rfl, ?_⟩
  · intro h
    simp only [List.mem_cons, List.not_mem_nil, not_or] at h
    obtain ⟨h1, h2, h3, h4, h5, h6, h7, h8⟩ := h
    have e1 : (s == 400) = false := by simp [h1]
    have e2 : (s == 401) = false := by simp [h2]
    have e3 : (s == 403) = false := by simp [h3]
    have e4 : (s == 404) = false := by simp [h4]
    have e5 : (s == 429) = false := by simp [h5]
    have e6 : (s == 500) = false := by simp [h6]
    have e7 : (s == 502) = false := by simp [h7]
    have e8 : (s == 503) = false := by simp [h8.1]
    simp [getStatusMessage, STATUS_CODE_MESSAGES, List.lookup, e1, e2, e3, e4, e5, e6, e7, e8]
  · simp [hevyErrorParts, hadv]

/-- Witness for C9 (amended): the unmapped status 418 yields the generic
headline. -/
theorem error_status_headlines_witness :
    getStatusMessage 418 = "Unexpected error (HTTP " ++ toString (418 : Int) ++ ")" :=
  (error_status_headlines 418 "x" none).2.2.2.2.2.2.2.2.2.1 (by decide)

/-- C9 counterexample: the status-500 headline is "Hevy API error" — it is
not an upstream-temporarily-unavailable headline (unlike 502 and 503). -/
theorem status500_headline :
    getStatusMessage 500 = "Hevy API error" ∧
    containsSubstr (getStatusMessage 500) "temporarily unavailable" = false := by
  exact ⟨by decide, by decide⟩

end HevyMcp

namespace HevyMcp

/-- C10 (amended): workout validation never inspects the title — it is
independent of the title field — and the transformer copies the title,
empty or not, verbatim into the upstream payload (routines and exercise
templates do get a non-empty-title check, workouts do not). -/
theorem workout_title_not_validated (tz : Int) (w : CreateWorkout) (t : String) :
    validateWorkoutData tz { w with title := t } = validateWorkoutData tz w ∧
    (transformWorkoutToAPI w).workout.title = w.title ∧
    create_workout_tool tz { w with title := t } =
      (create_workout_tool tz w).map
        (fun _ => transformWorkoutToAPI { w with title := t }) := by
  refine ⟨rfl, rfl, ?_⟩
  unfold create_workout_tool
  have : validateWorkoutData tz { w with title := t } = validateWorkoutData tz w := rfl
  rw [this]
  cases validateWorkoutData tz w with
  | error m => rfl
  | ok u => rfl

/-- C10 counterexample: a create-workout request whose title is the empty
string passes validation and is sent upstream, the empty title kept
verbatim — no validation failure is raised. -/
theorem empty_title_accepted :
    emptyTitleWorkout.title = "" ∧
    validateWorkoutData 0 emptyTitleWorkout = .ok () ∧
    create_workout_tool 0 emptyTitleWorkout = .ok (transformWorkoutToAPI emptyTitleWorkout) ∧
    (transformWorkoutToAPI emptyTitleWorkout).workout.title = "" := by
  refine ⟨rfl, by decide, by decide, rfl⟩

end HevyMcp
